import Mathlib

/-
Verification development for the ShaderSpecialization template class
(src/vulkan/ShaderSpecialization.h), a compile-time container that packs a
heterogeneous list of scalar constants into one contiguous byte buffer
together with a vk::SpecializationMapEntry table and a vk::SpecializationInfo
descriptor.

Modelling conventions:
- The template interrogates a parameter type T only through
  std::is_scalar<T>::value, sizeof(T), and T's object representation, so a
  C++ type is modelled by the pair (is_scalar, size), and a value of a scalar
  type of size n is identified with its object representation: a list of n
  bytes (bytes as Nat).
- A pointer into an instance's storage (m_entries.data(), m_data.data()) is
  modelled by the address (identity) of the instance owning that storage,
  carried as the field addr; the specification's claims distinguish only
  WHICH instance's table or buffer a pointer refers to.
- A compile-time failure (failed static_assert, no viable overload, failed
  template-argument deduction) is modelled as the value none. In particular,
  offset_of_helper as written in the source is ill-formed for Index != Max
  (its recursive call drops the Max template argument), so offset_of<N> is
  none for every N >= 1, and everything instantiated on top of it —
  construct_helper, the default constructor, get<N> and set<N> — propagates
  that none: the model credits the program with no behavior beyond what
  compiles.
- The byte member std::array<uint8_t, size> m_data has no initializer and is
  not named in any constructor's initializer list, so in the default
  constructor it is default-initialized: its bytes are indeterminate. The
  indeterminate pre-existing contents of that storage are passed to the
  model of the default constructor as an explicit argument.
-/

namespace npts

/-- A C++ type as observed by the ShaderSpecialization template: the code
uses a type parameter T only through std::is_scalar<T>::value and sizeof(T),
so a type is modelled by exactly those two attributes. -/
structure CppTy where
  is_scalar : Bool
  size : Nat
deriving DecidableEq

instance : Inhabited CppTy := ⟨⟨true, 0⟩⟩

/-- The type int32_t (also int): a scalar of size 4, used for concrete
instantiations. -/
def i32 : CppTy := ⟨true, 4⟩

/-- The type float: a scalar of size 4. -/
def f32 : CppTy := ⟨true, 4⟩

/-- A non-scalar aggregate (struct) type of size 12, used to exercise the
scalar-only static assertion. -/
def aggregate12 : CppTy := ⟨false, 12⟩

/-- Embedding of the two size_helper overloads:
size_helper<T>() = sizeof(T) and
size_helper<T1, T2, More...>() = sizeof(T1) + size_helper<T2, More...>(),
each guarded by static_assert(std::is_scalar<T>::value, "Data put into
specialization maps must be scalars"). A failed static_assert is a compile
error, modelled as none; an empty pack matches neither overload, which is
also a compile error, modelled as none. -/
def size_helper : List CppTy → Option Nat
  | [] => none
  | [t] => if t.is_scalar then some t.size else none
  | t :: rest => if t.is_scalar then (size_helper rest).map (fun s => t.size + s) else none

/-- The static member count = sizeof...(Ts). -/
def count (Ts : List CppTy) : Nat := Ts.length

/-- The static member size = size_helper<Ts...>(). Instantiations for which
size_helper fails to compile have no runtime semantics; the default 0 is
never exercised by an instantiation that compiles. -/
def specSize (Ts : List CppTy) : Nat := (size_helper Ts).getD 0

/-- The member alias type<N> = std::tuple_element<N, std::tuple<Ts...>>::type.
An out-of-range N is a compile error and is never instantiated by the class;
the default value is never exercised in that regime. -/
def type (Ts : List CppTy) (N : Nat) : CppTy := Ts.getD N default

/-- Embedding of offset_of_helper<Index, Max, Offset> exactly as written in
the source: its recursive call
offset_of_helper<Index + 1, Offset + sizeof(type<Index>)>() supplies only two
template arguments for three non-defaulted template parameters (Max is
dropped and Offset cannot be deduced from the empty function argument list),
so every instantiation that takes the recursive branch, i.e. every
instantiation with Index != Max, is ill-formed. The compile failure is
modelled as none; only the Index == Max base case compiles and yields Offset.
The helper never reaches its use of sizeof(type<Index>), so it does not
consult the type list. -/
def offset_of_helper_asWritten (Index Max Offset : Nat) : Option Nat :=
  if Index = Max then some Offset else none

/-- The static member offset_of<N> = offset_of_helper<0, N, 0>(). With the
helper as written this compiles only for N = 0 (yielding 0) and is a compile
error — none — for every N >= 1. The type-list parameter is kept for
interface parity with the source member; the as-written helper never uses
it. -/
def offset_of (_Ts : List CppTy) (N : Nat) : Option Nat :=
  offset_of_helper_asWritten 0 N 0

/-- The record vk::SpecializationMapEntry {constantID, offset, size}. -/
structure MapEntry where
  constantID : Nat
  offset : Nat
  size : Nat
deriving DecidableEq

/-- The record vk::SpecializationInfo {mapEntryCount, pMapEntries, dataSize,
pData}. The two pointer fields are modelled by the address of the instance
whose m_entries / m_data storage they point into. -/
structure SpecializationInfo where
  mapEntryCount : Nat
  pMapEntries : Nat
  dataSize : Nat
  pData : Nat
deriving DecidableEq

/-- The state of one ShaderSpecialization<Ts...> object: its address
(identity), the m_info descriptor, the m_entries table and the m_data byte
buffer. -/
structure ShaderSpecialization (Ts : List CppTy) where
  addr : Nat
  m_info : SpecializationInfo
  m_entries : List MapEntry
  m_data : List Nat
deriving DecidableEq

/-- The vk::SpecializationInfo{count, m_entries.data(), size, m_data.data()}
construction expression that the default, copy and move constructors all
evaluate: both pointers refer to the storage of the instance under
construction, the instance at address a. -/
def mkInfo (Ts : List CppTy) (a : Nat) : SpecializationInfo :=
  ⟨count Ts, a, specSize Ts, a⟩

/-- construct_helper<Index>(): writes
m_entries[Index] = {Index, offset_of<Index>, sizeof(type<Index>)} for
Index, Index + 1, ..., count - 1. The recursion runs for count - Index steps;
that count is the structural argument remaining, with remaining = 0 playing
the role of Index = count. Each step instantiates offset_of<Index>, which is
a compile error for Index >= 1 (see offset_of_helper_asWritten), so the
whole chain — and with it any instantiation with two or more types — is
none. -/
def construct_helper (Ts : List CppTy) : Nat → Nat → List MapEntry → Option (List MapEntry)
  | 0, _, es => some es
  | remaining + 1, Index, es =>
      match offset_of Ts Index with
      | none => none
      | some off =>
          construct_helper Ts remaining (Index + 1)
            (es.set Index ⟨Index, off, (type Ts Index).size⟩)

/-- The default constructor ShaderSpecialization(): it exists only for
instantiations that compile — size_helper<Ts...>() must compile (it sizes
m_data) and construct_helper<0>() must compile — whence the two none
gates. It runs construct_helper<0>() on m_entries (whose elements were
value-initialized by the vulkan.hpp member initializers of
vk::SpecializationMapEntry) and then assigns m_info. The member m_data has
no initializer and is not named in the constructor, so it is
default-initialized: its bytes keep the indeterminate pre-existing contents
of the storage, passed here as junk, which the constructor never writes. -/
def defaultCtor (Ts : List CppTy) (a : Nat) (junk : List Nat) :
    Option (ShaderSpecialization Ts) :=
  (size_helper Ts).bind (fun _ =>
    (construct_helper Ts (count Ts) 0 (List.replicate (count Ts) ⟨0, 0, 0⟩)).map
      (fun es => { addr := a, m_info := mkInfo Ts a, m_entries := es, m_data := junk }))

/-- The copy constructor ShaderSpecialization(const ShaderSpecialization&):
copies m_entries and m_data from the source by value (std::array copy), then
assigns m_info from the shared construction expression, anchoring both
pointers to the new instance's own storage at address a. It involves no
offset computation, so it is total on existing instances. -/
def copyCtor {Ts : List CppTy} (other : ShaderSpecialization Ts) (a : Nat) :
    ShaderSpecialization Ts :=
  { addr := a
    m_info := mkInfo Ts a
    m_entries := other.m_entries
    m_data := other.m_data }

/-- The move constructor ShaderSpecialization(ShaderSpecialization&&): moves
m_entries and m_data (for std::array of trivially copyable elements, an
elementwise copy leaving the source unchanged), then assigns m_info from the
shared construction expression, anchoring both pointers to the new instance's
own storage at address a. -/
def moveCtor {Ts : List CppTy} (other : ShaderSpecialization Ts) (a : Nat) :
    ShaderSpecialization Ts :=
  { addr := a
    m_info := mkInfo Ts a
    m_entries := other.m_entries
    m_data := other.m_data }

/-- The member info(): returns m_info. -/
def ShaderSpecialization.info {Ts : List CppTy} (s : ShaderSpecialization Ts) :
    SpecializationInfo := s.m_info

/-- Overwriting the byte range [off, off + v.length) of data with v: the
effect of the store through the reinterpret_cast pointer in set. Faithful
whenever off + v.length ≤ data.length, which holds for every instantiation
that compiles. -/
def writeBytes (data : List Nat) (off : Nat) (v : List Nat) : List Nat :=
  data.take off ++ v ++ data.drop (off + v.length)

/-- The member get<N>(): reads sizeof(type<N>) bytes of m_data starting at
offset_of<N> and reinterprets them as type<N>; a scalar value is identified
with its object representation, so get returns that byte slice.
Instantiating get<N> instantiates offset_of<N>, which is a compile error for
N >= 1, hence the Option. -/
def ShaderSpecialization.get {Ts : List CppTy} (s : ShaderSpecialization Ts)
    (N : Nat) : Option (List Nat) :=
  (offset_of Ts N).map (fun off => (s.m_data.drop off).take (type Ts N).size)

/-- The member set<N>(type<N> value): stores value's object representation
(a byte list v of length sizeof(type<N>)) into m_data at offset_of<N>.
Instantiating set<N> instantiates offset_of<N>, which is a compile error for
N >= 1, hence the Option. -/
def ShaderSpecialization.set {Ts : List CppTy} (s : ShaderSpecialization Ts)
    (N : Nat) (v : List Nat) : Option (ShaderSpecialization Ts) :=
  (offset_of Ts N).map (fun off => { s with m_data := writeBytes s.m_data off v })

/-- The copy assignment operator: guarded by this != &other (address
comparison); if the operands are distinct objects it assigns only
m_data = other.m_data, leaving m_info and m_entries untouched, and returns
*this. It involves no offset computation. -/
def assignCopy {Ts : List CppTy} (self other : ShaderSpecialization Ts) :
    ShaderSpecialization Ts :=
  if self.addr = other.addr then self else { self with m_data := other.m_data }

/-- The move assignment operator: guarded by this != &other; if the operands
are distinct objects it assigns only m_data = std::move(other.m_data) (an
elementwise copy for std::array<uint8_t>), leaving m_info and m_entries
untouched, and returns *this. -/
def assignMove {Ts : List CppTy} (self other : ShaderSpecialization Ts) :
    ShaderSpecialization Ts :=
  if self.addr = other.addr then self else { self with m_data := other.m_data }

/-- The concrete ShaderSpecialization<int32_t> instance value at address a
holding the given buffer bytes: info anchored at a, and the single entry
{0, 0, 4} that construct_helper<0>() builds. ShaderSpecialization<int32_t>
is the compilable fragment: with one type the constructor only instantiates
offset_of<0>, which compiles. -/
def inst1 (a : Nat) (bytes : List Nat) : ShaderSpecialization [i32] :=
  ⟨a, mkInfo [i32] a, [⟨0, 0, 4⟩], bytes⟩

/-- The default constructor of the single-int instantiation produces exactly
the inst1 value: ShaderSpecialization<int32_t> compiles and its construction
succeeds with the one entry {0, 0, 4}. -/
theorem defaultCtor_i32_eq (a : Nat) (bytes : List Nat) :
    defaultCtor [i32] a bytes = some (inst1 a bytes) := rfl

/-! ### size_helper lemma -/

theorem size_helper_nonscalar :
    ∀ ts : List CppTy, (∃ t ∈ ts, t.is_scalar = false) → size_helper ts = none := by
  intro ts
  induction ts with
  | nil => intro h; simp at h
  | cons t rest ih =>
    intro h
    cases rest with
    | nil =>
      obtain ⟨x, hx, hxs⟩ := h
      simp at hx
      subst hx
      simp [size_helper, hxs]
    | cons u more =>
      by_cases ht : t.is_scalar = true
      · have hmore : ∃ x ∈ u :: more, x.is_scalar = false := by
          obtain ⟨x, hx, hxs⟩ := h
          rcases List.mem_cons.mp hx with h1 | h2
          · subst h1; rw [ht] at hxs; cases hxs
          · exact ⟨x, h2, hxs⟩
        simp [size_helper, ht, ih hmore]
      · have hf : t.is_scalar = false := by
          cases hts : t.is_scalar
          · rfl
          · exact absurd hts ht
        simp [size_helper, hf]

/-! ### Byte-buffer lemmas -/

theorem writeBytes_read (data v : List Nat) {off : Nat}
    (hoff : off ≤ data.length) :
    ((writeBytes data off v).drop off).take v.length = v := by
  have h1 : (data.take off).length = off := by rw [List.length_take]; omega
  rw [writeBytes, List.append_assoc, List.drop_left' h1, List.take_left' rfl]

/-- Storing at index 0 and loading index 0 round-trips; index 0 is the one
index whose offset_of compiles (offset 0), so this covers every instantiation
the program can actually exhibit. -/
theorem set_get_zero {Ts : List CppTy} (s : ShaderSpecialization Ts)
    (v : List Nat) (hv : v.length = (type Ts 0).size) :
    (s.set 0 v).bind (fun s2 => s2.get 0) = some v := by
  have h0 : offset_of Ts 0 = some 0 := rfl
  simp only [ShaderSpecialization.set, ShaderSpecialization.get, h0,
    Option.map_some', Option.some_bind]
  rw [← hv]
  exact congrArg some (writeBytes_read s.m_data v (Nat.zero_le _))

/-! ### Claim theorems -/

/-- C1: for every instance produced by copy construction or move
construction, the descriptor returned by info() references that new
instance's own entry table and byte buffer — both pointer fields carry the
new instance's address — and never the donor instance's storage. -/
theorem spec_c1_ctor_info_self_anchored {Ts : List CppTy}
    (other : ShaderSpecialization Ts) (a : Nat) (h : a ≠ other.addr) :
    ((copyCtor other a).info.pMapEntries = (copyCtor other a).addr ∧
     (copyCtor other a).info.pData = (copyCtor other a).addr ∧
     (copyCtor other a).info.pMapEntries ≠ other.addr ∧
     (copyCtor other a).info.pData ≠ other.addr) ∧
    ((moveCtor other a).info.pMapEntries = (moveCtor other a).addr ∧
     (moveCtor other a).info.pData = (moveCtor other a).addr ∧
     (moveCtor other a).info.pMapEntries ≠ other.addr ∧
     (moveCtor other a).info.pData ≠ other.addr) :=
  ⟨⟨rfl, rfl, h, h⟩, ⟨rfl, rfl, h, h⟩⟩

/-- Witness for C1: a copy and a move of a concrete single-int instance at
address 0 into a fresh instance at address 1. -/
theorem spec_c1_witness :
    (copyCtor (inst1 0 (List.replicate 4 0)) 1).info.pData =
      (copyCtor (inst1 0 (List.replicate 4 0)) 1).addr ∧
    (moveCtor (inst1 0 (List.replicate 4 0)) 1).info.pMapEntries ≠
      (inst1 0 (List.replicate 4 0)).addr :=
  ⟨(spec_c1_ctor_info_self_anchored (inst1 0 (List.replicate 4 0)) 1
      (by decide)).1.2.1,
   (spec_c1_ctor_info_self_anchored (inst1 0 (List.replicate 4 0)) 1
      (by decide)).2.2.2.1⟩

/-- C2 (code-bug evidence): the entry table cannot be built as claimed,
because offset_of_helper as written in the source does not compile past its
base case. Instantiating ShaderSpecialization over two int32 types requires
offset_of<1> = offset_of_helper<0, 1, 0>(), whose recursive branch supplies
only two template arguments for three non-defaulted parameters (Max is
dropped, Offset cannot be deduced), so the instantiation is ill-formed;
only offset_of<0> compiles and yields 0. The claimed recurrence
offset(i+1) = offset(i) + sizeof(Ti) is the evident intent — the header's
own usage comment instantiates a three-type list — but not what the source
text does. -/
theorem spec_c2_offset_recursion_ill_formed :
    offset_of_helper_asWritten 0 0 0 = some 0 ∧
    offset_of_helper_asWritten 0 1 0 = none :=
  ⟨rfl, rfl⟩

/-- C3 (code-bug evidence): the set/get round trip as claimed — for every
scalar list and every index — cannot compile, because get<i> and set<i>
instantiate offset_of<i>, ill-formed for i >= 1 (see the C2 theorem). On the
compilable fragment, the single-type lists, the round trip does hold: for
any scalar t and any value v of type t, set<0>(v) then get<0>() returns v.
On the two-int list — the smallest list the claim quantifies over beyond
that fragment — set<1> and get<1> are compile errors, modelled as none. -/
theorem spec_c3_roundtrip_fragment_and_failure :
    (∀ (t : CppTy) (s : ShaderSpecialization [t]) (v : List Nat),
        t.is_scalar = true → v.length = t.size →
        (s.set 0 v).bind (fun s2 => s2.get 0) = some v) ∧
    (∀ (s : ShaderSpecialization [i32, i32]) (v : List Nat),
        s.set 1 v = none ∧ s.get 1 = none) := by
  constructor
  · intro t s v _ hv
    exact set_get_zero s v hv
  · intro s v
    exact ⟨rfl, rfl⟩

/-- Witness for C3: on a concrete single-int instance, writing bytes
[9, 9, 9, 9] at index 0 and reading index 0 returns them. -/
theorem spec_c3_witness :
    ((inst1 5 (List.replicate 4 0)).set 0 [9, 9, 9, 9]).bind
        (fun s2 => s2.get 0) = some [9, 9, 9, 9] :=
  spec_c3_roundtrip_fragment_and_failure.1 i32 (inst1 5 (List.replicate 4 0))
    [9, 9, 9, 9] (by decide) (by decide)

/-- C4 (code-bug evidence): the claim needs two distinct indices, so a type
list of length at least two — and no such list compiles: the default
constructor of ShaderSpecialization<int32_t, int32_t> instantiates
offset_of<1>, which is ill-formed (see the C2 theorem), so construction is a
compile error (none) and so are get<1> and set<1> on the minimal
two-index instantiation. The no-aliasing property the claim states is the
evident intent, but the program has no two-index behavior to exhibit. -/
theorem spec_c4_no_distinct_indices_compile :
    (∀ (a : Nat) (junk : List Nat), defaultCtor [i32, i32] a junk = none) ∧
    (∀ (s : ShaderSpecialization [i32, i32]) (v : List Nat),
        s.set 1 v = none ∧ s.get 1 = none) ∧
    offset_of [i32, i32] 1 = none :=
  ⟨fun _ _ => rfl, fun _ _ => ⟨rfl, rfl⟩, rfl⟩

/-- C5: copy assignment and move assignment between distinct instances
replace only the destination's buffer bytes with the source's — so every
get<i> on the destination afterwards equals the source's stored value —
while the destination's entry table and descriptor view are left completely
unchanged. -/
theorem spec_c5_assign_only_buffer {Ts : List CppTy}
    (dst src : ShaderSpecialization Ts) (i : Nat)
    (h : dst.addr ≠ src.addr) :
    (assignCopy dst src).m_data = src.m_data ∧
    (assignCopy dst src).m_entries = dst.m_entries ∧
    (assignCopy dst src).info = dst.info ∧
    (assignCopy dst src).get i = src.get i ∧
    (assignMove dst src).m_data = src.m_data ∧
    (assignMove dst src).m_entries = dst.m_entries ∧
    (assignMove dst src).info = dst.info ∧
    (assignMove dst src).get i = src.get i := by
  have hc : assignCopy dst src = { dst with m_data := src.m_data } := by
    rw [assignCopy, if_neg h]
  have hm : assignMove dst src = { dst with m_data := src.m_data } := by
    rw [assignMove, if_neg h]
  rw [hc, hm]
  exact ⟨rfl, rfl, rfl, rfl, rfl, rfl, rfl, rfl⟩

/-- Witness for C5: copy-assigning between two concrete single-int instances
at distinct addresses transfers the buffer and keeps the destination's
view. -/
theorem spec_c5_witness :
    (assignCopy (inst1 0 (List.replicate 4 1))
        (inst1 3 (List.replicate 4 2))).m_data =
      (inst1 3 (List.replicate 4 2)).m_data ∧
    (assignCopy (inst1 0 (List.replicate 4 1))
        (inst1 3 (List.replicate 4 2))).info =
      (inst1 0 (List.replicate 4 1)).info :=
  ⟨(spec_c5_assign_only_buffer (inst1 0 (List.replicate 4 1))
      (inst1 3 (List.replicate 4 2)) 0 (by decide)).1,
   (spec_c5_assign_only_buffer (inst1 0 (List.replicate 4 1))
      (inst1 3 (List.replicate 4 2)) 0 (by decide)).2.2.1⟩

/-- C6 (code-bug evidence): the claim's scenario — copy, then mutate the
copy at one index while observing another — needs a list of length at least
two, and the spec's own scenario-3 container (int32, int32, float) does not
compile: its default constructor instantiates offset_of<1>, ill-formed (see
the C2 theorem), so construction is none. On the compilable single-type
fragment the mutation-independence that does exist is proved: mutating the
copy stores the new value in the copy's own buffer, and the copy's view
points at the copy's address, never the original's — the original is a
distinct value the mutation cannot reach. -/
theorem spec_c6_copy_fragment_and_failure :
    (∀ (t : CppTy) (aInst : ShaderSpecialization [t]) (na : Nat) (v : List Nat),
        t.is_scalar = true → v.length = t.size → na ≠ aInst.addr →
        ((copyCtor aInst na).set 0 v).bind (fun b => b.get 0) = some v ∧
        ((copyCtor aInst na).set 0 v).map (fun b => b.info.pData) = some na ∧
        ((copyCtor aInst na).set 0 v).map (fun b => b.info.pData) ≠
          some aInst.addr) ∧
    (∀ (a : Nat) (junk : List Nat), defaultCtor [i32, i32, f32] a junk = none) := by
  constructor
  · intro t aInst na v _ hv hna
    refine ⟨set_get_zero (copyCtor aInst na) v hv, rfl, ?_⟩
    show some na ≠ some aInst.addr
    exact fun hcontra => hna (Option.some.inj hcontra)
  · intro a junk
    rfl

/-- Witness for C6: copy a concrete single-int instance to address 8, write
bytes [99, 0, 0, 0] into the copy; the copy returns them at index 0 and its
view points at address 8, not the original's address 0. -/
theorem spec_c6_witness :
    ((copyCtor (inst1 0 (List.replicate 4 3)) 8).set 0 [99, 0, 0, 0]).bind
        (fun b => b.get 0) = some [99, 0, 0, 0] ∧
    ((copyCtor (inst1 0 (List.replicate 4 3)) 8).set 0 [99, 0, 0, 0]).map
        (fun b => b.info.pData) = some 8 ∧
    ((copyCtor (inst1 0 (List.replicate 4 3)) 8).set 0 [99, 0, 0, 0]).map
        (fun b => b.info.pData) ≠ some (inst1 0 (List.replicate 4 3)).addr :=
  spec_c6_copy_fragment_and_failure.1 i32 (inst1 0 (List.replicate 4 3)) 8
    [99, 0, 0, 0] (by decide) (by decide) (by decide)

/-- C7 counterexample: construct over the single-type list [int32] — the
compilable fragment — with pre-existing storage bytes [171, 205, 239, 18];
the default constructor succeeds and never writes m_data (the member is
default-initialized and not named in the constructor), so immediately after
construction the buffer is not zero-initialized: it still holds those
bytes. -/
theorem spec_c7_buffer_not_zeroed_cex :
    (defaultCtor [i32] 0 [171, 205, 239, 18]).map (fun s => s.m_data) =
      some [171, 205, 239, 18] ∧
    (defaultCtor [i32] 0 [171, 205, 239, 18]).map (fun s => s.m_data) ≠
      some (List.replicate 4 0) :=
  ⟨rfl, by decide⟩

/-- C7 amended: the default constructor writes no buffer byte at all: every
instance it successfully produces holds in m_data exactly the indeterminate
bytes that were already in its storage (the entry table and the descriptor
view are built, the buffer is left default-initialized). -/
theorem spec_c7_amended_buffer_unwritten (Ts : List CppTy) (a : Nat)
    (junk : List Nat) (s : ShaderSpecialization Ts)
    (h : defaultCtor Ts a junk = some s) : s.m_data = junk := by
  rw [defaultCtor] at h
  rcases Option.bind_eq_some.mp h with ⟨n, _, h2⟩
  rcases Option.map_eq_some'.mp h2 with ⟨es, _, hfs⟩
  rw [← hfs]

/-- Witness for C7's amended theorem: the concrete single-int construction
with pre-existing bytes [1, 2, 3, 4] keeps exactly those bytes. -/
theorem spec_c7_witness : (inst1 7 [1, 2, 3, 4]).m_data = [1, 2, 3, 4] :=
  spec_c7_amended_buffer_unwritten [i32] 7 [1, 2, 3, 4] (inst1 7 [1, 2, 3, 4])
    (defaultCtor_i32_eq 7 [1, 2, 3, 4])

/-- C8 (code-bug evidence): the claim is about the descriptor view of a
constructed instance, and for any list of length at least two no view
exists: construction is a compile error (the constructor instantiates
offset_of<1>, ill-formed, see the C2 theorem) — in particular the spec's
scenario-1 container (int32, int32, float), whose view the claim expects to
report 3 entries and 12 bytes, is none. On the compilable single-type
fragment the claim does hold: the view of any successfully constructed
ShaderSpecialization<t> reports entry count 1 = list length and data size
sizeof(t) = the sum over the list. -/
theorem spec_c8_view_fragment_and_failure :
    (∀ (t : CppTy) (a : Nat) (junk : List Nat) (s : ShaderSpecialization [t]),
        t.is_scalar = true → defaultCtor [t] a junk = some s →
        s.info.mapEntryCount = 1 ∧ s.info.dataSize = t.size) ∧
    (∀ (a : Nat) (junk : List Nat),
        defaultCtor [i32, i32, f32] a junk = none) := by
  constructor
  · intro t a junk s hs h
    have hsz : size_helper [t] = some t.size := by simp [size_helper, hs]
    rw [defaultCtor] at h
    rcases Option.bind_eq_some.mp h with ⟨n, _, h2⟩
    rcases Option.map_eq_some'.mp h2 with ⟨es, _, hfs⟩
    rw [← hfs]
    refine ⟨rfl, ?_⟩
    show specSize [t] = t.size
    rw [specSize, hsz]
    rfl
  · intro a junk
    rfl

/-- Witness for C8: the concrete single-int construction reports 1 entry of
the int32 size. -/
theorem spec_c8_witness :
    (inst1 0 (List.replicate 4 0)).info.mapEntryCount = 1 ∧
    (inst1 0 (List.replicate 4 0)).info.dataSize = i32.size :=
  spec_c8_view_fragment_and_failure.1 i32 0 (List.replicate 4 0)
    (inst1 0 (List.replicate 4 0)) (by decide) (defaultCtor_i32_eq 0 (List.replicate 4 0))

/-- C9: a non-scalar type anywhere in the list makes size_helper — and with
it the whole instantiation — fail at compile time through the scalar-only
static assertion, modelled as none; no instance and hence no runtime error
path exists in that case. -/
theorem spec_c9_nonscalar_rejected (ts : List CppTy)
    (h : ∃ t ∈ ts, t.is_scalar = false) : size_helper ts = none :=
  size_helper_nonscalar ts h

/-- Witness for C9: a list containing a 12-byte aggregate after an int32 is
rejected. -/
theorem spec_c9_witness : size_helper [i32, aggregate12] = none :=
  spec_c9_nonscalar_rejected [i32, aggregate12] ⟨aggregate12, by decide, rfl⟩

/-- C10: self-assignment, by copy or by move, is a no-op: the this != &other
guard compares addresses and fails when source and destination are the same
object, so buffer bytes, entry table and descriptor view all keep their
prior values. -/
theorem spec_c10_self_assign_noop {Ts : List CppTy}
    (s : ShaderSpecialization Ts) :
    assignCopy s s = s ∧ assignMove s s = s := by
  constructor
  · rw [assignCopy, if_pos rfl]
  · rw [assignMove, if_pos rfl]

end npts
